import Mathlib

/-!
Verification of the Catalyst Trading System stimulus-driven control loop.

Shallow embedding of:
  * safety.py            (RiskLimits, SafetyCheckResult, SafetyValidator)
  * agent/stimulus.py    (StimulusType, Stimulus, StimulusEvaluator)
  * agent/main.py        (AutonomousAgent.process_stimulus / loop_iteration,
                          modelled as traces of collaborator calls)

Python floats are modelled as rationals, Python dicts as association
lists, and the wall clock (datetime.now in the Hong Kong timezone) is
passed explicitly as a parameter (an HKTime value for time-of-day checks
and a Nat date code for the exchange-local calendar date).
-/

namespace Catalyst

/-! ## safety.py -/

/-- Embeds dataclass RiskLimits (safety.py lines 21-34). -/
structure RiskLimits where
  max_positions : Int
  max_position_pct : ℚ
  min_position_value : ℚ
  max_daily_loss_pct : ℚ
  warning_loss_pct : ℚ
  max_trade_loss_pct : ℚ
  max_daily_trades : Int
  min_risk_reward : ℚ
  max_stop_loss_pct : ℚ
  lot_size : Int
deriving DecidableEq

/-- The dataclass field defaults of RiskLimits. -/
def RiskLimits.defaults : RiskLimits :=
  { max_positions := 5
    max_position_pct := 0.20
    min_position_value := 10000
    max_daily_loss_pct := 0.02
    warning_loss_pct := 0.015
    max_trade_loss_pct := 0.01
    max_daily_trades := 10
    min_risk_reward := 2.0
    max_stop_loss_pct := 0.05
    lot_size := 100 }

/-- The entries of the details dict built by validate_trade
(safety.py lines 142-156). -/
structure TradeDetails where
  symbol : String
  side : String
  quantity : Int
  entry_price : ℚ
  stop_loss : ℚ
  take_profit : ℚ
  position_value : ℚ
  portfolio_pct : ℚ
  risk_amount : ℚ
  risk_pct : ℚ
  reward_amount : ℚ
  risk_reward : ℚ
  stop_loss_pct : ℚ
deriving DecidableEq

/-- Embeds dataclass SafetyCheckResult (safety.py lines 37-44); the
details dict is typed as TradeDetails. -/
structure SafetyCheckResult where
  approved : Bool
  reason : String
  warnings : List String
  details : TradeDetails
deriving DecidableEq

/-- The mutable state of SafetyValidator (safety.py lines 50-53):
the configured limits plus the daily counter and its date.  The
exchange-local date is an abstract Nat code. -/
structure SafetyValidator where
  limits : RiskLimits
  daily_trades : Int
  trade_date : Option Nat
deriving DecidableEq

/-- Embeds SafetyValidator.reset_daily_counters (safety.py lines 55-60);
today stands for datetime.now(HK_TZ).date(). -/
def reset_daily_counters (v : SafetyValidator) (today : Nat) : SafetyValidator :=
  if v.trade_date = some today then v
  else { v with daily_trades := 0, trade_date := some today }

/-- Wall-clock time in the exchange timezone: weekday 0 = Monday .. 6 =
Sunday, plus hour and minute, as read by datetime.now(HK_TZ). -/
structure HKTime where
  weekday : Nat
  hour : Nat
  minute : Nat
deriving DecidableEq

/-- Minutes since midnight, the order used by Python time comparisons. -/
def HKTime.minutesOfDay (t : HKTime) : Nat := t.hour * 60 + t.minute

/-- Embeds SafetyValidator.is_market_open (safety.py lines 62-95) as a
function of the current wall-clock time.  9:30 = 570, 12:00 = 720,
13:00 = 780, 16:00 = 960 minutes. -/
def is_market_open (now : HKTime) : Bool × String :=
  if 5 ≤ now.weekday then (false, "Market closed: Weekend")
  else
    let ct := now.minutesOfDay
    if 570 ≤ ct ∧ ct < 720 then (true, "Morning session")
    else if 780 ≤ ct ∧ ct < 960 then (true, "Afternoon session")
    else if 720 ≤ ct ∧ ct < 780 then (false, "Market closed: Lunch break (12:00-13:00)")
    else if ct < 570 then (false, "Market closed: Before market open")
    else (false, "Market closed: After market close")

/-- Python round(x, 2): round to 2 decimal places.  (CPython rounds
half-to-even on binary floats; on the exact rational values exercised
here the two conventions agree, and none of the verified properties
probes a half-cent tie.) -/
def round2 (q : ℚ) : ℚ := (round (q * 100) : ℤ) / 100

/-- The details dict computed at the top of validate_trade
(safety.py lines 131-156), including the guarded divisions that fall
back to 0 when a denominator is not positive. -/
def trade_details (symbol side : String) (quantity : Int)
    (entry_price stop_loss take_profit portfolio_value : ℚ) : TradeDetails :=
  let position_value := (quantity : ℚ) * entry_price
  let portfolio_pct := if portfolio_value > 0 then position_value / portfolio_value else 0
  let risk_per_share := abs (entry_price - stop_loss)
  let risk_amount := risk_per_share * (quantity : ℚ)
  let risk_pct := if portfolio_value > 0 then risk_amount / portfolio_value else 0
  let reward_per_share := abs (take_profit - entry_price)
  let reward_amount := reward_per_share * (quantity : ℚ)
  let risk_reward := if risk_per_share > 0 then reward_per_share / risk_per_share else 0
  let stop_loss_pct := if entry_price > 0 then risk_per_share / entry_price else 0
  { symbol := symbol
    side := side
    quantity := quantity
    entry_price := entry_price
    stop_loss := stop_loss
    take_profit := take_profit
    position_value := round2 position_value
    portfolio_pct := round2 (portfolio_pct * 100)
    risk_amount := round2 risk_amount
    risk_pct := round2 (risk_pct * 100)
    reward_amount := round2 reward_amount
    risk_reward := round2 risk_reward
    stop_loss_pct := round2 (stop_loss_pct * 100) }

/-- Checks 3b-13 of validate_trade (safety.py lines 186-304), reached
once checks 1-3 have passed: the warning accumulation and the remaining
ordered checks, first failing check wins.  The numeric metrics
(safety.py lines 131-140) are pure, so computing them here is
equivalent to the source computing them before the chain. -/
def validate_checks_rest (limits : RiskLimits) (daily_trades : Int)
    (side : String) (quantity : Int)
    (entry_price stop_loss take_profit portfolio_value cash_available : ℚ)
    (current_positions : Int) (daily_pnl_pct : ℚ) : Bool × String × List String :=
  let position_value := (quantity : ℚ) * entry_price
  let portfolio_pct := if portfolio_value > 0 then position_value / portfolio_value else 0
  let risk_per_share := abs (entry_price - stop_loss)
  let risk_amount := risk_per_share * (quantity : ℚ)
  let risk_pct := if portfolio_value > 0 then risk_amount / portfolio_value else 0
  let reward_per_share := abs (take_profit - entry_price)
  let risk_reward := if risk_per_share > 0 then reward_per_share / risk_per_share else 0
  let stop_loss_pct := if entry_price > 0 then risk_per_share / entry_price else 0
  -- Check 3b: warning level
  let warnings :=
    if daily_pnl_pct ≤ -limits.warning_loss_pct then
      ["Warning: Approaching daily loss limit"]
    else []
  -- Check 4: maximum positions
  if current_positions ≥ limits.max_positions then
    (false, "Maximum positions reached", warnings)
  -- Check 5: position size limit
  else if portfolio_pct > limits.max_position_pct then
    (false, "Position too large", warnings)
  -- Check 6: minimum position value
  else if position_value < limits.min_position_value then
    (false, "Position too small", warnings)
  -- Check 7: available cash (for buys)
  else if side = "buy" ∧ position_value > cash_available then
    (false, "Insufficient cash", warnings)
  -- Check 8: stop loss direction
  else if side = "buy" ∧ stop_loss ≥ entry_price then
    (false, "Stop loss must be below entry price for long positions", warnings)
  else if side = "sell" ∧ stop_loss ≤ entry_price then
    (false, "Stop loss must be above entry price for short positions", warnings)
  -- Check 9: maximum stop loss percentage
  else if stop_loss_pct > limits.max_stop_loss_pct then
    (false, "Stop loss too wide", warnings)
  -- Check 10: minimum risk/reward ratio
  else if risk_reward < limits.min_risk_reward then
    (false, "Risk/reward too low", warnings)
  -- Check 11: maximum trade risk
  else if risk_pct > limits.max_trade_loss_pct then
    (false, "Trade risk too high", warnings)
  -- Check 12: daily trade limit
  else if daily_trades ≥ limits.max_daily_trades then
    (false, "Daily trade limit reached", warnings)
  -- Check 13: take profit direction
  else if side = "buy" ∧ take_profit ≤ entry_price then
    (false, "Take profit must be above entry price for long positions", warnings)
  else if side = "sell" ∧ take_profit ≥ entry_price then
    (false, "Take profit must be below entry price for short positions", warnings)
  -- All checks passed
  else (true, "All risk checks passed", warnings)

/-- The ordered check chain of validate_trade (safety.py lines
158-304): checks 1-3 in source order, then the rest of the chain.
Returns the approved flag, the rejection or success reason, and the
warnings list.  limits and daily_trades are the validator state after
the initial reset_daily_counters call. -/
def validate_checks (limits : RiskLimits) (daily_trades : Int) (now : HKTime)
    (side : String) (quantity : Int)
    (entry_price stop_loss take_profit portfolio_value cash_available : ℚ)
    (current_positions : Int) (daily_pnl_pct : ℚ) : Bool × String × List String :=
  let mo := is_market_open now
  -- Check 1: market hours
  if mo.1 = false then (false, mo.2, [])
  -- Check 2: lot size
  else if quantity % limits.lot_size ≠ 0 then
    (false, "Quantity must be multiple of board lot", [])
  -- Check 3: daily loss limit
  else if daily_pnl_pct ≤ -limits.max_daily_loss_pct then
    (false, "Daily loss limit reached", [])
  else
    validate_checks_rest limits daily_trades side quantity entry_price stop_loss
      take_profit portfolio_value cash_available current_positions daily_pnl_pct

/-- Embeds SafetyValidator.validate_trade (safety.py lines 97-304).
The method first calls reset_daily_counters, computes the metric
details, then runs the ordered check chain; every path returns a
SafetyCheckResult carrying the same details, so the result record is
assembled once here from the chain outcome. -/
def validate_trade (v0 : SafetyValidator) (now : HKTime) (today : Nat)
    (symbol side : String) (quantity : Int)
    (entry_price stop_loss take_profit portfolio_value cash_available : ℚ)
    (current_positions : Int) (daily_pnl_pct : ℚ) :
    SafetyValidator × SafetyCheckResult :=
  let v := reset_daily_counters v0 today
  let c := validate_checks v.limits v.daily_trades now side quantity entry_price
    stop_loss take_profit portfolio_value cash_available current_positions daily_pnl_pct
  (v, { approved := c.1, reason := c.2.1, warnings := c.2.2,
        details := trade_details symbol side quantity entry_price stop_loss take_profit
          portfolio_value })

/-- Embeds SafetyValidator.record_trade (safety.py lines 344-347). -/
def record_trade (v : SafetyValidator) (today : Nat) : SafetyValidator :=
  let v1 := reset_daily_counters v today
  { v1 with daily_trades := v1.daily_trades + 1 }

/-! ## agent/stimulus.py -/

/-- Embeds enum StimulusType (stimulus.py lines 32-44). -/
inductive StimulusType
  | VOLUME_SPIKE
  | PRICE_MOVE
  | PATTERN_SIGNAL
  | NEWS_EVENT
  | POSITION_UPDATE
  | STOP_TRIGGERED
  | TARGET_REACHED
  | TIME_STOP
  | SCHEDULED
  | RISK_WARNING
deriving DecidableEq, BEq

/-- A value in a stimulus data dict: strings and numbers occur. -/
inductive Val
  | str (s : String)
  | num (q : ℚ)
deriving DecidableEq, BEq

/-- Embeds dataclass Stimulus (stimulus.py lines 47-56); the data dict
is an association list of keys to values. -/
structure Stimulus where
  type : StimulusType
  symbol : Option String
  level : String
  urgency : String
  data : List (String × Val)
  timestamp : String
deriving DecidableEq

/-- A per-symbol quote as read by the evaluator: fields last,
change_pct and volume are the ones stimulus.py consumes. -/
structure Quote where
  last : ℚ
  change_pct : ℚ
  volume : ℚ
deriving DecidableEq

/-- The part of the market snapshot that evaluate consumes:
is_market_open and the symbol-to-quote mapping. -/
structure MarketState where
  is_market_open : Bool
  quotes : List (String × Quote)
deriving DecidableEq

/-- An open position as read by _check_positions. -/
structure PositionInfo where
  symbol : String
  current_price : ℚ
  avg_cost : ℚ
  unrealized_pnl_pct : ℚ
deriving DecidableEq

/-- The part of the portfolio snapshot that evaluate consumes. -/
structure PortfolioState where
  positions : List PositionInfo
  daily_pnl_pct : ℚ
deriving DecidableEq

/-- The state of StimulusEvaluator (stimulus.py lines 62-84):
thresholds from the strategy plus the mutable session-tracking maps
(dicts modelled as association lists, the set as a list). -/
structure StimulusEvaluator where
  volume_threshold : ℚ
  price_threshold : ℚ
  max_daily_loss_pct : ℚ
  last_prices : List (String × ℚ)
  last_volumes : List (String × ℚ)
  alerted_symbols : List String
deriving DecidableEq

/-- dict assignment d[k] = v on an association list. -/
def setKey {α : Type} (l : List (String × α)) (k : String) (v : α) : List (String × α) :=
  match l with
  | [] => [(k, v)]
  | (k1, v1) :: t => if k1 = k then (k, v) :: t else (k1, v1) :: setKey t k v

/-- Embeds StimulusEvaluator._check_volume_spike (stimulus.py lines
125-157).  The timestamp string ts stands for datetime.now().isoformat().
The last-volume map is updated unconditionally before the threshold
comparison, exactly as in the source. -/
def check_volume_spike (ev : StimulusEvaluator) (ts symbol : String) (q : Quote) :
    StimulusEvaluator × Option Stimulus :=
  let volume := q.volume
  let last_volume := (List.lookup symbol ev.last_volumes).getD volume
  let ev1 := { ev with last_volumes := setKey ev.last_volumes symbol volume }
  if last_volume = 0 then (ev1, none)
  else
    let volume_change := if last_volume > 0 then (volume - last_volume) / last_volume else 0
    if volume_change > ev1.volume_threshold then
      (ev1, some
        { type := StimulusType.VOLUME_SPIKE
          symbol := some symbol
          level := "TACTICAL"
          urgency := "high"
          data := [("current_volume", Val.num volume),
                   ("previous_volume", Val.num last_volume),
                   ("volume_change_pct", Val.num (round2 (volume_change * 100))),
                   ("threshold", Val.num ev1.volume_threshold)]
          timestamp := ts })
    else (ev1, none)

/-- Embeds StimulusEvaluator._check_price_move (stimulus.py lines
159-197): the last-price map is updated first, then a stimulus is
emitted only when the move exceeds the threshold and the symbol has not
already been alerted this session; the symbol is then added to
alerted_symbols. -/
def check_price_move (ev : StimulusEvaluator) (ts symbol : String) (q : Quote) :
    StimulusEvaluator × Option Stimulus :=
  let current_price := q.last
  let change_pct := q.change_pct
  let ev1 := { ev with last_prices := setKey ev.last_prices symbol current_price }
  if abs change_pct > ev1.price_threshold then
    if symbol ∈ ev1.alerted_symbols then (ev1, none)
    else
      ({ ev1 with alerted_symbols := symbol :: ev1.alerted_symbols },
       some
        { type := StimulusType.PRICE_MOVE
          symbol := some symbol
          level := "TACTICAL"
          urgency := if abs change_pct > 5 then "high" else "normal"
          data := [("current_price", Val.num current_price),
                   ("change_pct", Val.num change_pct),
                   ("threshold", Val.num ev1.price_threshold),
                   ("direction", Val.str (if change_pct > 0 then "up" else "down"))]
          timestamp := ts })
  else (ev1, none)

/-- The per-position body of StimulusEvaluator._check_positions
(stimulus.py lines 205-243). -/
def position_stimulus (ts : String) (pos : PositionInfo) : Option Stimulus :=
  if pos.unrealized_pnl_pct < -5 then
    some
      { type := StimulusType.STOP_TRIGGERED
        symbol := some pos.symbol
        level := "TACTICAL"
        urgency := "critical"
        data := [("current_price", Val.num pos.current_price),
                 ("entry_price", Val.num pos.avg_cost),
                 ("unrealized_pnl_pct", Val.num pos.unrealized_pnl_pct)]
        timestamp := ts }
  else if pos.unrealized_pnl_pct > 10 then
    some
      { type := StimulusType.TARGET_REACHED
        symbol := some pos.symbol
        level := "TACTICAL"
        urgency := "high"
        data := [("current_price", Val.num pos.current_price),
                 ("entry_price", Val.num pos.avg_cost),
                 ("unrealized_pnl_pct", Val.num pos.unrealized_pnl_pct)]
        timestamp := ts }
  else none

/-- Embeds StimulusEvaluator._check_positions (stimulus.py lines 199-245). -/
def check_positions (ts : String) (pf : PortfolioState) : List Stimulus :=
  pf.positions.filterMap (position_stimulus ts)

/-- Embeds StimulusEvaluator._check_risk_limits (stimulus.py lines
247-281): the hard branch carries action_required = CLOSE_ALL. -/
def check_risk_limits (ev : StimulusEvaluator) (ts : String) (pf : PortfolioState) :
    Option Stimulus :=
  if pf.daily_pnl_pct < -(ev.max_daily_loss_pct * 100) then
    some
      { type := StimulusType.RISK_WARNING
        symbol := none
        level := "TACTICAL"
        urgency := "critical"
        data := [("daily_pnl_pct", Val.num pf.daily_pnl_pct),
                 ("limit_pct", Val.num (-(ev.max_daily_loss_pct * 100))),
                 ("action_required", Val.str "CLOSE_ALL")]
        timestamp := ts }
  else if pf.daily_pnl_pct < -(ev.max_daily_loss_pct * 75) then
    some
      { type := StimulusType.RISK_WARNING
        symbol := none
        level := "TACTICAL"
        urgency := "high"
        data := [("daily_pnl_pct", Val.num pf.daily_pnl_pct),
                 ("limit_pct", Val.num (-(ev.max_daily_loss_pct * 100))),
                 ("warning", Val.str "Approaching daily loss limit")]
        timestamp := ts }
  else none

/-- The per-symbol body of the quote loop in evaluate (stimulus.py
lines 103-112): volume check first, then price check, state threaded. -/
def eval_quotes (ev : StimulusEvaluator) (ts : String) :
    List (String × Quote) → StimulusEvaluator × List Stimulus
  | [] => (ev, [])
  | (symbol, q) :: rest =>
    let p1 := check_volume_spike ev ts symbol q
    let p2 := check_price_move p1.1 ts symbol q
    let p3 := eval_quotes p2.1 ts rest
    (p3.1, p1.2.toList ++ p2.2.toList ++ p3.2)

/-- Embeds StimulusEvaluator.evaluate (stimulus.py lines 86-123):
empty when the market is closed, otherwise quote stimuli, then
position stimuli, then the optional risk warning. -/
def evaluate (ev : StimulusEvaluator) (ts : String) (market : MarketState)
    (pf : PortfolioState) : StimulusEvaluator × List Stimulus :=
  if market.is_market_open = false then (ev, [])
  else
    let p := eval_quotes ev ts market.quotes
    let posStims := check_positions ts pf
    let riskStim := check_risk_limits p.1 ts pf
    (p.1, p.2 ++ posStims ++ riskStim.toList)

/-- Embeds StimulusEvaluator.reset_session (stimulus.py lines 334-338). -/
def reset_session (ev : StimulusEvaluator) : StimulusEvaluator :=
  { ev with alerted_symbols := [], last_prices := [], last_volumes := [] }

/-- A sequence of evaluate calls: each element is one tick input
(timestamp, market snapshot, portfolio snapshot); the session state is
threaded through and all emitted stimuli are concatenated in order. -/
def run_evaluates (ev : StimulusEvaluator) :
    List (String × MarketState × PortfolioState) → StimulusEvaluator × List Stimulus
  | [] => (ev, [])
  | (ts, m, pf) :: rest =>
    let p1 := evaluate ev ts m pf
    let p2 := run_evaluates p1.1 rest
    (p2.1, p1.2 ++ p2.2)

/-- Recognises a PRICE_MOVE stimulus for symbol s. -/
def isPriceMoveFor (s : String) (st : Stimulus) : Bool :=
  match st.type, st.symbol with
  | StimulusType.PRICE_MOVE, some s1 => s1 == s
  | _, _ => false

/-- Number of PRICE_MOVE stimuli for symbol s in a list. -/
def countPriceMove (s : String) (l : List Stimulus) : Nat :=
  l.countP (isPriceMoveFor s)

/-- 1 while symbol s can still fire a price-move alert this session,
0 once it is in alerted_symbols. -/
def pmPotential (s : String) (ev : StimulusEvaluator) : Nat :=
  if s ∈ ev.alerted_symbols then 0 else 1

/-! ## agent/main.py

The control loop performs calls on external collaborators (thinking
engine, memory repository, execution engine, alert system).  We model a
run of AutonomousAgent.process_stimulus as the trace of collaborator
calls it makes, with the collaborators supplied as oracle functions. -/

/-- The fields of a tactical decision consumed by process_stimulus:
its action string and the needs_human_attention flag. -/
structure Decision where
  action : String
  symbol : Option String
  needs_human_attention : Bool
deriving DecidableEq

/-- The execution result consumed by process_stimulus. -/
structure ExecResult where
  success : Bool
deriving DecidableEq

/-- One collaborator call made by the agent.  closeAllPositions is the
emergency-flatten capability of the execution engine
(agent/execution.py line 423); process_stimulus never emits it. -/
inductive AgentEvent
  | tacticalThink (st : Stimulus)
  | logDecision (d : Decision)
  | executeDecision (d : Decision)
  | updateDecisionExecution (id : Nat) (r : ExecResult)
  | attentionAlert (d : Decision)
  | closeAllPositions
deriving DecidableEq

/-- Embeds AutonomousAgent.process_stimulus (agent/main.py lines
224-262) as the trace of collaborator calls it makes.  thinker is the
tactical oracle (thinker.tactical_think), log_id the id returned by
memory.log_decision, ex the execution engine (executor.execute).
Only TACTICAL-level stimuli are handled; every one of them is sent to
the oracle, the decision is logged, and an actionable decision is
executed and its outcome attached to the logged id. -/
def process_stimulus (thinker : Stimulus → Decision) (log_id : Nat)
    (ex : Decision → ExecResult) (st : Stimulus) : List AgentEvent :=
  if st.level = "TACTICAL" then
    let d := thinker st
    [AgentEvent.tacticalThink st, AgentEvent.logDecision d] ++
    (if d.action ∈ (["HOLD", "WAIT", "SKIP"] : List String) then []
     else [AgentEvent.executeDecision d,
           AgentEvent.updateDecisionExecution log_id (ex d)]) ++
    (if d.needs_human_attention then [AgentEvent.attentionAlert d] else [])
  else []

/-- Embeds the stimulus loop of AutonomousAgent.loop_iteration
(agent/main.py lines 208-210): process_stimulus is awaited for each
stimulus in order with no per-stimulus exception handler, so the first
raised error aborts the remaining stimuli of the tick and propagates to
run(), which catches it at the tick boundary (lines 185-189).  step is
the body; an error value is the raised exception message. -/
def process_all (step : Stimulus → Except String (List AgentEvent)) :
    List Stimulus → List AgentEvent × Option String
  | [] => ([], none)
  | st :: rest =>
    match step st with
    | Except.ok evs =>
      let p := process_all step rest
      (evs ++ p.1, p.2)
    | Except.error msg => ([], some msg)

/-- Recognises a logDecision event. -/
def isLogEvent : AgentEvent → Bool
  | AgentEvent.logDecision _ => true
  | _ => false

/-- Recognises an executeDecision event. -/
def isExecEvent : AgentEvent → Bool
  | AgentEvent.executeDecision _ => true
  | _ => false

/-- Recognises an updateDecisionExecution event. -/
def isUpdateEvent : AgentEvent → Bool
  | AgentEvent.updateDecisionExecution _ _ => true
  | _ => false

/-- A concrete tactical price-move stimulus, as emitted by
check_price_move. -/
def sampleStimulus : Stimulus :=
  { type := StimulusType.PRICE_MOVE, symbol := some "0700.HK", level := "TACTICAL",
    urgency := "high",
    data := [("current_price", Val.num 350), ("change_pct", Val.num 6),
             ("threshold", Val.num 2), ("direction", Val.str "up")],
    timestamp := "t0" }

/-- A concrete oracle that proposes a BUY for every stimulus. -/
def sampleThinker : Stimulus → Decision :=
  fun _ => { action := "BUY", symbol := some "0700.HK", needs_human_attention := false }

/-- A concrete execution collaborator that always fills. -/
def sampleExec : Decision → ExecResult := fun _ => { success := true }

/-- The hard risk-warning stimulus exactly as _check_risk_limits emits
it (stimulus.py lines 253-264): TACTICAL level, critical urgency,
action_required = CLOSE_ALL in the payload. -/
def closeAllStimulus : Stimulus :=
  { type := StimulusType.RISK_WARNING, symbol := none, level := "TACTICAL",
    urgency := "critical",
    data := [("daily_pnl_pct", Val.num (-3)), ("limit_pct", Val.num (-2)),
             ("action_required", Val.str "CLOSE_ALL")],
    timestamp := "t0" }

/-- A tactical stimulus for symbol A. -/
def stimA : Stimulus :=
  { type := StimulusType.PRICE_MOVE, symbol := some "A", level := "TACTICAL",
    urgency := "high", data := [], timestamp := "t1" }

/-- A tactical stimulus for symbol B. -/
def stimB : Stimulus :=
  { type := StimulusType.PRICE_MOVE, symbol := some "B", level := "TACTICAL",
    urgency := "high", data := [], timestamp := "t1" }

/-- A per-stimulus processing body that raises (oracle timeout) on the
symbol-A stimulus and succeeds with one logged decision otherwise. -/
def failingStep : Stimulus → Except String (List AgentEvent) := fun st =>
  if st.symbol = some "A" then Except.error "oracle timeout"
  else Except.ok [AgentEvent.logDecision
    { action := "BUY", symbol := st.symbol, needs_human_attention := false }]

/-- A validator that has recorded no trade yet: fresh daily counter and
no stored trade date, with the dataclass default limits. -/
def freshValidator : SafetyValidator :=
  { limits := RiskLimits.defaults, daily_trades := 0, trade_date := none }

/-- A validator holding a stale counter from a previous exchange date
(trade_date = day 0, five trades recorded). -/
def staleValidator : SafetyValidator :=
  { limits := RiskLimits.defaults, daily_trades := 5, trade_date := some 0 }

/-! ## Theorems -/

theorem reset_daily_counters_limits (v : SafetyValidator) (today : Nat) :
    (reset_daily_counters v today).limits = v.limits := by
  unfold reset_daily_counters
  split <;> rfl

theorem validate_trade_fst (v : SafetyValidator) (now : HKTime) (today : Nat)
    (symbol side : String) (quantity : Int)
    (entry_price stop_loss take_profit portfolio_value cash_available : ℚ)
    (current_positions : Int) (daily_pnl_pct : ℚ) :
    (validate_trade v now today symbol side quantity entry_price stop_loss take_profit
      portfolio_value cash_available current_positions daily_pnl_pct).1 =
    reset_daily_counters v today := rfl

theorem validate_trade_approved_eq (v : SafetyValidator) (now : HKTime) (today : Nat)
    (symbol side : String) (quantity : Int)
    (entry_price stop_loss take_profit portfolio_value cash_available : ℚ)
    (current_positions : Int) (daily_pnl_pct : ℚ) :
    (validate_trade v now today symbol side quantity entry_price stop_loss take_profit
      portfolio_value cash_available current_positions daily_pnl_pct).2.approved =
    (validate_checks (reset_daily_counters v today).limits
      (reset_daily_counters v today).daily_trades now side quantity entry_price
      stop_loss take_profit portfolio_value cash_available current_positions
      daily_pnl_pct).1 := rfl

theorem validate_checks_daily_loss (limits : RiskLimits) (daily_trades : Int)
    (now : HKTime) (side : String) (quantity : Int)
    (entry_price stop_loss take_profit portfolio_value cash_available : ℚ)
    (current_positions : Int) (daily_pnl_pct : ℚ)
    (h : daily_pnl_pct ≤ -limits.max_daily_loss_pct) :
    (validate_checks limits daily_trades now side quantity entry_price stop_loss
      take_profit portfolio_value cash_available current_positions daily_pnl_pct).1 =
      false := by
  unfold validate_checks
  dsimp only
  split_ifs with h1 h2
  · rfl
  · rfl
  · rfl

/-- C1: whenever daily_pnl_pct is at or below the negated daily loss
limit, validate_trade returns approved = false, for all values of the
other arguments and any validator and clock state. -/
theorem validate_trade_daily_loss_rejects
    (v : SafetyValidator) (now : HKTime) (today : Nat) (symbol side : String)
    (quantity : Int)
    (entry_price stop_loss take_profit portfolio_value cash_available : ℚ)
    (current_positions : Int) (daily_pnl_pct : ℚ)
    (h : daily_pnl_pct ≤ -v.limits.max_daily_loss_pct) :
    (validate_trade v now today symbol side quantity entry_price stop_loss take_profit
      portfolio_value cash_available current_positions daily_pnl_pct).2.approved = false := by
  rw [validate_trade_approved_eq]
  exact validate_checks_daily_loss _ _ _ _ _ _ _ _ _ _ _ _
    (by rw [reset_daily_counters_limits]; exact h)

/-- C1 witness: at a concrete rejected input the hypothesis holds and
the theorem applies. -/
theorem validate_trade_daily_loss_rejects_witness :
    ((-0.02 : ℚ) ≤ -freshValidator.limits.max_daily_loss_pct) ∧
    (validate_trade freshValidator ⟨2, 10, 0⟩ 7 "0700.HK" "buy" 1000 100 95 110 1000000
      500000 0 (-0.02)).2.approved = false :=
  ⟨by norm_num [freshValidator, RiskLimits.defaults],
   validate_trade_daily_loss_rejects freshValidator ⟨2, 10, 0⟩ 7 "0700.HK" "buy" 1000
     100 95 110 1000000 500000 0 (-0.02)
     (by norm_num [freshValidator, RiskLimits.defaults])⟩

/-- C9: calling reset_daily_counters twice while the exchange-local
date is unchanged leaves the validator in the same state as calling it
once. -/
theorem reset_daily_counters_idempotent (v : SafetyValidator) (today : Nat) :
    reset_daily_counters (reset_daily_counters v today) today =
    reset_daily_counters v today := by
  by_cases h : v.trade_date = some today
  · simp [reset_daily_counters, h]
  · simp [reset_daily_counters, h]

/-- C3 counterexample: with a stored trade_date from a previous day and
a non-zero counter, validate_trade itself changes daily_trades (its
initial reset_daily_counters call zeroes the stale counter), so the
counter is not unchanged by every validate_trade call. -/
theorem validate_trade_mutates_counter_on_date_roll :
    (validate_trade staleValidator ⟨2, 10, 0⟩ 1 "0700.HK" "buy" 1000 100 95 110 1000000
      500000 0 0).1.daily_trades ≠ staleValidator.daily_trades := by
  rw [validate_trade_fst]
  simp [reset_daily_counters, staleValidator]

/-- C3 (amended): when the stored trade_date equals the current
exchange-local date, validate_trade leaves the whole validator state
(daily_trades included) unchanged, and record_trade increases
daily_trades by exactly one; on a date rollover both first apply the
daily reset. -/
theorem validate_trade_counter_frame
    (v : SafetyValidator) (now : HKTime) (today : Nat) (symbol side : String)
    (quantity : Int)
    (entry_price stop_loss take_profit portfolio_value cash_available : ℚ)
    (current_positions : Int) (daily_pnl_pct : ℚ)
    (h : v.trade_date = some today) :
    (validate_trade v now today symbol side quantity entry_price stop_loss take_profit
      portfolio_value cash_available current_positions daily_pnl_pct).1 = v ∧
    record_trade v today = { v with daily_trades := v.daily_trades + 1 } := by
  have hr : reset_daily_counters v today = v := by simp [reset_daily_counters, h]
  constructor
  · rw [validate_trade_fst, hr]
  · unfold record_trade
    rw [hr]

/-- C3 witness: the amended statement at a concrete same-date state. -/
theorem validate_trade_counter_frame_witness :
    (SafetyValidator.mk RiskLimits.defaults 3 (some 5)).trade_date = some 5 ∧
    ((validate_trade ⟨RiskLimits.defaults, 3, some 5⟩ ⟨2, 10, 0⟩ 5 "0700.HK" "buy" 1000
        100 95 110 1000000 500000 0 0).1 = ⟨RiskLimits.defaults, 3, some 5⟩ ∧
      record_trade ⟨RiskLimits.defaults, 3, some 5⟩ 5 =
        ⟨RiskLimits.defaults, 3 + 1, some 5⟩) :=
  ⟨rfl,
   validate_trade_counter_frame ⟨RiskLimits.defaults, 3, some 5⟩ ⟨2, 10, 0⟩ 5 "0700.HK"
     "buy" 1000 100 95 110 1000000 500000 0 0 rfl⟩

/-- C7: the scenario entry=100, stop=95, target=110, quantity=1000,
side=buy, portfolio_value=1000000, cash=500000, 0 positions,
daily_pnl_pct=0, default limits, fresh daily counter, market open:
validate_trade approves, with risk_reward = 2.0 = (target-entry)/
(entry-stop) and stop_loss_pct = 5.0 in the returned details. -/
theorem validate_trade_scenario (now : HKTime) (today : Nat)
    (h : (is_market_open now).1 = true) :
    (validate_trade freshValidator now today "0700.HK" "buy" 1000 100 95 110 1000000
      500000 0 0).2.approved = true ∧
    (validate_trade freshValidator now today "0700.HK" "buy" 1000 100 95 110 1000000
      500000 0 0).2.details.risk_reward = 2 ∧
    (validate_trade freshValidator now today "0700.HK" "buy" 1000 100 95 110 1000000
      500000 0 0).2.details.stop_loss_pct = 5 := by
  have ha1 : |(100 : ℚ) - 95| = 5 := by
    rw [abs_of_nonneg (by norm_num : (0 : ℚ) ≤ 100 - 95)]
    norm_num
  have ha2 : |(110 : ℚ) - 100| = 10 := by
    rw [abs_of_nonneg (by norm_num : (0 : ℚ) ≤ 110 - 100)]
    norm_num
  have hr : reset_daily_counters freshValidator today =
      ⟨RiskLimits.defaults, 0, some today⟩ := by
    simp [reset_daily_counters, freshValidator]
  refine ⟨?_, ?_, ?_⟩
  · rw [validate_trade_approved_eq, hr]
    unfold validate_checks
    dsimp only
    simp only [h]
    norm_num [validate_checks_rest, RiskLimits.defaults, ha1, ha2]
    decide
  · show (trade_details "0700.HK" "buy" 1000 100 95 110 1000000).risk_reward = 2
    norm_num [trade_details, round2, ha1, ha2, round_eq]
  · show (trade_details "0700.HK" "buy" 1000 100 95 110 1000000).stop_loss_pct = 5
    norm_num [trade_details, round2, ha1, ha2, round_eq]

/-- C7 witness: Wednesday 10:00 exchange time is inside the morning
session, so the market-open hypothesis holds there. -/
theorem validate_trade_scenario_witness :
    (is_market_open ⟨2, 10, 0⟩).1 = true ∧
    ((validate_trade freshValidator ⟨2, 10, 0⟩ 0 "0700.HK" "buy" 1000 100 95 110 1000000
        500000 0 0).2.approved = true ∧
      (validate_trade freshValidator ⟨2, 10, 0⟩ 0 "0700.HK" "buy" 1000 100 95 110
        1000000 500000 0 0).2.details.risk_reward = 2 ∧
      (validate_trade freshValidator ⟨2, 10, 0⟩ 0 "0700.HK" "buy" 1000 100 95 110
        1000000 500000 0 0).2.details.stop_loss_pct = 5) :=
  ⟨by decide, validate_trade_scenario ⟨2, 10, 0⟩ 0 (by decide)⟩

/-- C10: validate_trade is total over all numeric inputs: the returned
result always carries the full computed metrics in details on every
path, and the guarded divisions fall back to 0 when portfolio_value is
not positive (portfolio_pct, risk_pct), when entry_price is not
positive (stop_loss_pct), and when entry_price equals stop_loss
(risk_reward). -/
theorem validate_trade_total_metrics
    (v : SafetyValidator) (now : HKTime) (today : Nat) (symbol side : String)
    (quantity : Int)
    (entry_price stop_loss take_profit portfolio_value cash_available : ℚ)
    (current_positions : Int) (daily_pnl_pct : ℚ) :
    (validate_trade v now today symbol side quantity entry_price stop_loss take_profit
      portfolio_value cash_available current_positions daily_pnl_pct).2.details =
      trade_details symbol side quantity entry_price stop_loss take_profit portfolio_value ∧
    (portfolio_value ≤ 0 →
      (trade_details symbol side quantity entry_price stop_loss take_profit
        portfolio_value).portfolio_pct = 0 ∧
      (trade_details symbol side quantity entry_price stop_loss take_profit
        portfolio_value).risk_pct = 0) ∧
    (entry_price ≤ 0 →
      (trade_details symbol side quantity entry_price stop_loss take_profit
        portfolio_value).stop_loss_pct = 0) ∧
    (entry_price = stop_loss →
      (trade_details symbol side quantity entry_price stop_loss take_profit
        portfolio_value).risk_reward = 0) := by
  refine ⟨rfl, ?_, ?_, ?_⟩
  · intro h
    constructor <;>
      simp [trade_details, if_neg (not_lt.mpr h), round2]
  · intro h
    simp [trade_details, if_neg (not_lt.mpr h), round2]
  · intro h
    subst h
    simp [trade_details, round2]

/-- C10 witness: all three degenerate hypotheses hold simultaneously at
the zero input and the theorem applies there. -/
theorem validate_trade_total_metrics_witness :
    (validate_trade freshValidator ⟨2, 10, 0⟩ 0 "0700.HK" "buy" 100 0 0 0 0 0 0
        0).2.details = trade_details "0700.HK" "buy" 100 0 0 0 0 ∧
    (trade_details "0700.HK" "buy" 100 0 0 0 0).portfolio_pct = 0 ∧
    (trade_details "0700.HK" "buy" 100 0 0 0 0).risk_pct = 0 ∧
    (trade_details "0700.HK" "buy" 100 0 0 0 0).stop_loss_pct = 0 ∧
    (trade_details "0700.HK" "buy" 100 0 0 0 0).risk_reward = 0 := by
  obtain ⟨h1, h2, h3, h4⟩ :=
    validate_trade_total_metrics freshValidator ⟨2, 10, 0⟩ 0 "0700.HK" "buy" 100 0 0 0 0
      0 0 0
  exact ⟨h1, (h2 (le_refl 0)).1, (h2 (le_refl 0)).2, h3 (le_refl 0), h4 rfl⟩

/-- C8: when the market snapshot has is_market_open = false, evaluate
returns the empty stimulus list, for every evaluator state and
regardless of the quotes, positions and daily P&L in the inputs. -/
theorem evaluate_market_closed (ev : StimulusEvaluator) (ts : String)
    (quotes : List (String × Quote)) (pf : PortfolioState) :
    (evaluate ev ts { is_market_open := false, quotes := quotes } pf).2 = [] := rfl

theorem check_volume_spike_alerted (ev : StimulusEvaluator) (ts symbol : String)
    (q : Quote) :
    (check_volume_spike ev ts symbol q).1.alerted_symbols = ev.alerted_symbols := by
  unfold check_volume_spike
  dsimp only
  split_ifs <;> rfl

theorem check_volume_spike_no_pm (s : String) (ev : StimulusEvaluator)
    (ts symbol : String) (q : Quote) :
    countPriceMove s (check_volume_spike ev ts symbol q).2.toList = 0 := by
  unfold check_volume_spike
  dsimp only
  split_ifs <;> simp [countPriceMove, isPriceMoveFor]

theorem check_price_move_potential (s : String) (ev : StimulusEvaluator)
    (ts symbol : String) (q : Quote) :
    countPriceMove s (check_price_move ev ts symbol q).2.toList +
      pmPotential s (check_price_move ev ts symbol q).1 ≤ pmPotential s ev := by
  unfold check_price_move
  dsimp only
  by_cases h1 : abs q.change_pct > ev.price_threshold
  · rw [if_pos h1]
    by_cases h2 : symbol ∈ ev.alerted_symbols
    · rw [if_pos h2]
      simp [countPriceMove, pmPotential]
    · rw [if_neg h2]
      by_cases hs : s = symbol
      · subst hs
        simp [countPriceMove, pmPotential, isPriceMoveFor, h2, List.countP_cons]
      · simp [countPriceMove, pmPotential, isPriceMoveFor, List.countP_cons,
          List.mem_cons, hs, Ne.symm hs]
  · rw [if_neg h1]
    simp [countPriceMove, pmPotential]

theorem eval_quotes_potential (s ts : String) :
    ∀ (quotes : List (String × Quote)) (ev : StimulusEvaluator),
    countPriceMove s (eval_quotes ev ts quotes).2 +
      pmPotential s (eval_quotes ev ts quotes).1 ≤ pmPotential s ev
  | [], ev => by simp [eval_quotes, countPriceMove]
  | (symbol, q) :: rest, ev => by
    have h1 := check_volume_spike_no_pm s ev ts symbol q
    have h2 : pmPotential s (check_volume_spike ev ts symbol q).1 = pmPotential s ev := by
      simp [pmPotential, check_volume_spike_alerted]
    have h3 := check_price_move_potential s (check_volume_spike ev ts symbol q).1 ts
      symbol q
    have h4 := eval_quotes_potential s ts rest
      (check_price_move (check_volume_spike ev ts symbol q).1 ts symbol q).1
    simp only [eval_quotes, countPriceMove, List.countP_append] at *
    omega

theorem filterMap_position_no_pm (s ts : String) : ∀ l : List PositionInfo,
    countPriceMove s (l.filterMap (position_stimulus ts)) = 0
  | [] => by simp [countPriceMove]
  | pos :: rest => by
    have ht := filterMap_position_no_pm s ts rest
    simp only [List.filterMap_cons]
    cases hp : position_stimulus ts pos with
    | none => exact ht
    | some st =>
      have hst : isPriceMoveFor s st = false := by
        unfold position_stimulus at hp
        split_ifs at hp <;> simp only [Option.some.injEq] at hp <;> subst hp <;> rfl
      simp only [countPriceMove, List.countP_cons, hst] at *
      simpa using ht

theorem check_risk_limits_no_pm (s : String) (ev : StimulusEvaluator) (ts : String)
    (pf : PortfolioState) :
    countPriceMove s (check_risk_limits ev ts pf).toList = 0 := by
  unfold check_risk_limits
  split_ifs <;> simp [countPriceMove, isPriceMoveFor]

theorem evaluate_potential (s : String) (ev : StimulusEvaluator) (ts : String)
    (m : MarketState) (pf : PortfolioState) :
    countPriceMove s (evaluate ev ts m pf).2 + pmPotential s (evaluate ev ts m pf).1 ≤
      pmPotential s ev := by
  unfold evaluate
  split_ifs with h
  · simp [countPriceMove]
  · have h1 := eval_quotes_potential s ts m.quotes ev
    have h2 := filterMap_position_no_pm s ts pf.positions
    have h3 := check_risk_limits_no_pm s (eval_quotes ev ts m.quotes).1 ts pf
    simp only [countPriceMove, List.countP_append, check_positions] at *
    omega

theorem run_evaluates_potential (s : String) :
    ∀ (ticks : List (String × MarketState × PortfolioState)) (ev : StimulusEvaluator),
    countPriceMove s (run_evaluates ev ticks).2 +
      pmPotential s (run_evaluates ev ticks).1 ≤ pmPotential s ev
  | [], ev => by simp [run_evaluates, countPriceMove]
  | (ts, m, pf) :: rest, ev => by
    have h1 := evaluate_potential s ev ts m pf
    have h2 := run_evaluates_potential s rest (evaluate ev ts m pf).1
    simp only [run_evaluates, countPriceMove, List.countP_append] at *
    omega

/-- C2: starting from a freshly reset session state (as reset_session
leaves it), any sequence of evaluate calls emits at most one PRICE_MOVE
stimulus for any given symbol, however many calls are made and however
large the price changes are. -/
theorem price_move_once_per_session (ev0 : StimulusEvaluator) (s : String)
    (ticks : List (String × MarketState × PortfolioState)) :
    countPriceMove s (run_evaluates (reset_session ev0) ticks).2 ≤ 1 := by
  have h := run_evaluates_potential s ticks (reset_session ev0)
  have hp : pmPotential s (reset_session ev0) = 1 := by
    simp [pmPotential, reset_session]
  omega

/-- C4 counterexample: for the RISK_WARNING stimulus carrying
action_required = CLOSE_ALL exactly as _check_risk_limits emits it,
process_stimulus does consult the per-symbol oracle (a tacticalThink
call is in its trace) and never dispatches an emergency-flatten action
(no closeAllPositions call is in its trace), contradicting the claimed
bypass. -/
theorem close_all_stimulus_consults_oracle :
    List.lookup "action_required" closeAllStimulus.data = some (Val.str "CLOSE_ALL") ∧
    AgentEvent.tacticalThink closeAllStimulus ∈
      process_stimulus sampleThinker 42 sampleExec closeAllStimulus ∧
    AgentEvent.closeAllPositions ∉
      process_stimulus sampleThinker 42 sampleExec closeAllStimulus := by
  refine ⟨rfl, ?_, ?_⟩ <;>
    simp [process_stimulus, closeAllStimulus, sampleThinker, sampleExec]

/-- C4 (amended): a RISK_WARNING stimulus with action_required =
CLOSE_ALL is emitted at TACTICAL level and is processed by
process_stimulus exactly like any other tactical stimulus: the
per-symbol oracle is consulted for it and no emergency-flatten action
is dispatched for it. -/
theorem risk_warning_goes_through_oracle
    (thinker : Stimulus → Decision) (log_id : Nat) (ex : Decision → ExecResult)
    (st : Stimulus) (_htype : st.type = StimulusType.RISK_WARNING)
    (_hdata : List.lookup "action_required" st.data = some (Val.str "CLOSE_ALL"))
    (h : st.level = "TACTICAL") :
    AgentEvent.tacticalThink st ∈ process_stimulus thinker log_id ex st ∧
    AgentEvent.closeAllPositions ∉ process_stimulus thinker log_id ex st := by
  unfold process_stimulus
  rw [if_pos h]
  dsimp only
  constructor
  · simp
  · split_ifs <;> simp

/-- C4 witness: the amended statement applied to the concrete
CLOSE_ALL risk-warning stimulus. -/
theorem risk_warning_goes_through_oracle_witness :
    closeAllStimulus.type = StimulusType.RISK_WARNING ∧
    List.lookup "action_required" closeAllStimulus.data = some (Val.str "CLOSE_ALL") ∧
    closeAllStimulus.level = "TACTICAL" ∧
    (AgentEvent.tacticalThink closeAllStimulus ∈
        process_stimulus sampleThinker 7 sampleExec closeAllStimulus ∧
      AgentEvent.closeAllPositions ∉
        process_stimulus sampleThinker 7 sampleExec closeAllStimulus) :=
  ⟨rfl, rfl, rfl,
   risk_warning_goes_through_oracle sampleThinker 7 sampleExec closeAllStimulus rfl rfl
     rfl⟩

/-- C5: for a tactical stimulus whose oracle decision is actionable
(action not HOLD/WAIT/SKIP), process_stimulus writes exactly one
decision record, writes it strictly before execution is attempted,
attempts execution strictly before attaching the outcome, and attaches
the outcome via updateDecisionExecution carrying the very id returned
by log_decision — never as a second record. -/
theorem decision_logged_before_execution
    (thinker : Stimulus → Decision) (log_id : Nat) (ex : Decision → ExecResult)
    (st : Stimulus) (h1 : st.level = "TACTICAL")
    (h2 : (thinker st).action ∉ (["HOLD", "WAIT", "SKIP"] : List String)) :
    (process_stimulus thinker log_id ex st).countP isLogEvent = 1 ∧
    (process_stimulus thinker log_id ex st).countP isUpdateEvent = 1 ∧
    (process_stimulus thinker log_id ex st).findIdx isLogEvent <
      (process_stimulus thinker log_id ex st).findIdx isExecEvent ∧
    (process_stimulus thinker log_id ex st).findIdx isExecEvent <
      (process_stimulus thinker log_id ex st).findIdx isUpdateEvent ∧
    AgentEvent.updateDecisionExecution log_id (ex (thinker st)) ∈
      process_stimulus thinker log_id ex st := by
  unfold process_stimulus
  rw [if_pos h1]
  dsimp only
  rw [if_neg h2]
  by_cases ha : (thinker st).needs_human_attention
  · rw [if_pos ha]
    refine ⟨?_, ?_, ?_, ?_, ?_⟩ <;>
      simp [isLogEvent, isExecEvent, isUpdateEvent, List.countP_cons, List.findIdx_cons]
  · rw [if_neg ha]
    refine ⟨?_, ?_, ?_, ?_, ?_⟩ <;>
      simp [isLogEvent, isExecEvent, isUpdateEvent, List.countP_cons, List.findIdx_cons]

/-- C5 witness: the theorem applied to a concrete actionable tactical
stimulus with concrete collaborators. -/
theorem decision_logged_before_execution_witness :
    sampleStimulus.level = "TACTICAL" ∧
    (sampleThinker sampleStimulus).action ∉ (["HOLD", "WAIT", "SKIP"] : List String) ∧
    ((process_stimulus sampleThinker 42 sampleExec sampleStimulus).countP isLogEvent = 1 ∧
      (process_stimulus sampleThinker 42 sampleExec sampleStimulus).countP isUpdateEvent
        = 1 ∧
      (process_stimulus sampleThinker 42 sampleExec sampleStimulus).findIdx isLogEvent <
        (process_stimulus sampleThinker 42 sampleExec sampleStimulus).findIdx
          isExecEvent ∧
      (process_stimulus sampleThinker 42 sampleExec sampleStimulus).findIdx isExecEvent <
        (process_stimulus sampleThinker 42 sampleExec sampleStimulus).findIdx
          isUpdateEvent ∧
      AgentEvent.updateDecisionExecution 42 (sampleExec (sampleThinker sampleStimulus)) ∈
        process_stimulus sampleThinker 42 sampleExec sampleStimulus) :=
  ⟨rfl, by simp [sampleThinker],
   decision_logged_before_execution sampleThinker 42 sampleExec sampleStimulus rfl
     (by simp [sampleThinker])⟩

/-- C6 counterexample: in a tick with two stimuli where processing the
first raises, the tick trace is empty: the second stimulus, which alone
would be processed and produce a log event, is never processed, so a
failure on one stimulus does prevent the processing of the remaining
stimuli of the same tick. -/
theorem tick_failure_aborts_remaining :
    (process_all failingStep [stimA, stimB]).1 = [] ∧
    (process_all failingStep [stimB]).1 =
      [AgentEvent.logDecision
        { action := "BUY", symbol := some "B", needs_human_attention := false }] := by
  constructor <;> rfl

/-- C6 (amended): an error raised while processing one stimulus aborts
the processing of all remaining stimuli of the same tick; the tick
produces no further events and the error propagates as the single
failure of the whole tick, to be caught at the loop boundary in run(). -/
theorem tick_error_propagation (step : Stimulus → Except String (List AgentEvent))
    (st : Stimulus) (rest : List Stimulus) (msg : String)
    (h : step st = Except.error msg) :
    process_all step (st :: rest) = ([], some msg) := by
  unfold process_all
  rw [h]

/-- C6 witness: the amended statement at the concrete failing tick. -/
theorem tick_error_propagation_witness :
    failingStep stimA = Except.error "oracle timeout" ∧
    process_all failingStep [stimA, stimB] = ([], some "oracle timeout") :=
  ⟨rfl, tick_error_propagation failingStep stimA [stimB] "oracle timeout" rfl⟩

end Catalyst
